import Mathlib

/-!
Shallow embedding of the D-ASE reconfigurable computation lattice.

Two engine families are embedded from the source tree:
* the discrete, explicitly-typed 6-role node/engine pair
  (`UniversalNode` / `UniversalNodeEngine` in universal_node_engine.cpp),
* the continuous, signal-controlled 4-mode analog node
  (`AnalogUniversalNode` in analog_universal_node_engine_fixed.cpp).

Modelling conventions:
* `double` and `float` values are modelled as `ℚ` (exact arithmetic; the
  spec disclaims numerical-accuracy guarantees beyond standard float
  arithmetic, and every claim under study is structural or exact);
* unsigned machine integers are `ℕ` with explicit `% 2 ^ w` where the
  source arithmetic can wrap;
* the C conversion `static_cast<uintN_t>(double)` is modelled as floor
  followed by `% 2 ^ N` (for nonnegative in-range arguments, the only ones
  exercised by the source and the claims, this is exactly C truncation);
* the transcendental float function `sinf` has no exact rational
  counterpart, so every definition that reaches the VECTOR seeding code
  is parametrised by an arbitrary function `sinf : ℚ → ℚ`;
* the C union `FunctionData` is modelled as a sum type with exactly one
  active payload, the representation the memset-then-placement-init
  discipline of `switchToType` maintains.
-/

namespace DASE

/-- The six node roles of the discrete engine (`enum class NodeType`). -/
inductive NodeType : Type
  | WORKER
  | COMM
  | VECTOR
  | PROCESSOR
  | MARKOV
  | KERNEL
  deriving DecidableEq, Repr

/-- `struct WorkerData` with its default member values. -/
structure WorkerData : Type where
  gain : ℚ
  accumulator : ℚ
  previous_value : ℚ
  deriving DecidableEq, Repr

/-- Default-constructed `WorkerData` (gain 1.0, accumulator 0.0, previous 0.0). -/
def WorkerData.init : WorkerData := ⟨1, 0, 0⟩

/-- `struct CommData` with a `uint32` message count and a 6-byte routing table. -/
structure CommData : Type where
  message_count : ℕ
  routing_table : Fin 6 → ℕ
  deriving DecidableEq

/-- Default-constructed `CommData` (count 0, zeroed table). -/
def CommData.init : CommData := ⟨0, fun _ => 0⟩

/-- `struct VectorData`: an 8-component float vector and a threshold. -/
structure VectorData : Type where
  data : Fin 8 → ℚ
  threshold : ℚ
  deriving DecidableEq

/-- Default-constructed `VectorData` (zero vector, threshold 0.8). -/
def VectorData.init : VectorData := ⟨fun _ => 0, 8 / 10⟩

/-- `struct ProcessorData`: four `uint32` registers and a `uint16` program counter. -/
structure ProcessorData : Type where
  registers : Fin 4 → ℕ
  pc : ℕ
  deriving DecidableEq

/-- Default-constructed `ProcessorData` (zeroed registers, pc 0). -/
def ProcessorData.init : ProcessorData := ⟨fun _ => 0, 0⟩

/-- `struct MarkovData`: a `uint8` state and four float transition weights. -/
structure MarkovData : Type where
  state : ℕ
  transitions : Fin 4 → ℚ
  deriving DecidableEq

/-- Default-constructed `MarkovData` (state 0, uniform 0.25 transitions). -/
def MarkovData.init : MarkovData := ⟨0, fun _ => 1 / 4⟩

/-- `struct KernelData`: influence 1.0 and decay 0.9 by default. -/
structure KernelData : Type where
  influence : ℚ
  decay : ℚ
  deriving DecidableEq, Repr

/-- Default-constructed `KernelData`. -/
def KernelData.init : KernelData := ⟨1, 9 / 10⟩

/-- The `union FunctionData` of the source, as a tagged variant with exactly
one active per-role payload. -/
inductive FunctionData : Type
  | worker (w : WorkerData)
  | comm (c : CommData)
  | vector (v : VectorData)
  | processor (p : ProcessorData)
  | markov (m : MarkovData)
  | kernel (k : KernelData)
  deriving DecidableEq

/-- `static_cast<uint32_t>` of a double, modelled as floor then wrap mod `2^32`
(the source conversion is undefined outside `[0, 2^32)`; the claims only
exercise nonnegative in-range values, where this is exact C truncation). -/
def u32ofRat (q : ℚ) : ℕ := (Rat.floor q).toNat % 2 ^ 32

/-- `static_cast<uint8_t>` of a double, modelled as floor then wrap mod `2^8`. -/
def u8ofRat (q : ℚ) : ℕ := (Rat.floor q).toNat % 2 ^ 8

/-- `class UniversalNode`: role tag, last scalar output (`value`), active
role-state payload, spatial coordinates, id, and the two counters. -/
structure UniversalNode : Type where
  current_type : NodeType
  value : ℚ
  data : FunctionData
  x : ℤ
  y : ℤ
  z : ℤ
  node_id : ℕ
  switch_count : ℕ
  execution_count : ℕ
  deriving DecidableEq

/-- The `UniversalNode` constructor: starts as a WORKER with default data. -/
def UniversalNode.mkNode (id : ℕ) (px py pz : ℤ) : UniversalNode :=
  ⟨NodeType.WORKER, 0, FunctionData.worker WorkerData.init, px, py, pz, id, 0, 0⟩

/-- `UniversalNode::switchToType`: no-op returning `false` when the target
role equals the current one; otherwise captures `value`, bumps the switch
counter, replaces the payload by a fresh zero-initialized block for the new
role seeded from the captured value, and returns `true`. -/
def UniversalNode.switchToType (sinf : ℚ → ℚ) (n : UniversalNode)
    (new_type : NodeType) : Bool × UniversalNode :=
  if n.current_type = new_type then (false, n)
  else
    let current_val := n.value
    let d : FunctionData :=
      match new_type with
      | NodeType.WORKER =>
          FunctionData.worker ⟨1, current_val, 0⟩
      | NodeType.COMM =>
          FunctionData.comm ⟨0, fun _ => 0⟩
      | NodeType.VECTOR =>
          FunctionData.vector
            ⟨fun i => sinf ((n.x + n.y + n.z + (i : ℕ)) * (1 / 10)), 8 / 10⟩
      | NodeType.PROCESSOR =>
          FunctionData.processor
            ⟨fun i => if i = 0 then u32ofRat current_val else 0, 0⟩
      | NodeType.MARKOV =>
          FunctionData.markov ⟨u8ofRat current_val % 4, fun _ => 1 / 4⟩
      | NodeType.KERNEL =>
          FunctionData.kernel ⟨current_val, 9 / 10⟩
    (true,
      { n with
          current_type := new_type
          switch_count := n.switch_count + 1
          data := d })

/-- `UniversalNode::execute`: dispatches on the active role payload (the
source switches on `current_type` and reads the matching union member, which
coincide on every node the engine constructs), mutates the role state,
stores the result in `value`, bumps the execution counter, and returns the
result. -/
def UniversalNode.execute (n : UniversalNode) (input : ℚ) : ℚ × UniversalNode :=
  let step : ℚ × FunctionData :=
    match n.data with
    | FunctionData.worker w =>
        let r0 := input * w.gain
        let acc := w.accumulator + r0 * (1 / 100)
        (r0 + acc, FunctionData.worker ⟨w.gain, acc, w.previous_value⟩)
    | FunctionData.comm c =>
        let cnt : ℕ := (c.message_count + 1) % 2 ^ 32
        (input + (cnt : ℚ) * (1 / 100), FunctionData.comm ⟨cnt, c.routing_table⟩)
    | FunctionData.vector v =>
        (∑ i : Fin 8, v.data i * input, FunctionData.vector v)
    | FunctionData.processor p =>
        let r1 : ℕ := (p.registers 0 + u32ofRat input) % 2 ^ 32
        ((r1 : ℚ),
          FunctionData.processor
            ⟨fun i => if i = 1 then r1 else p.registers i, (p.pc + 1) % 2 ^ 16⟩)
    | FunctionData.markov m =>
        let ns : ℕ := (u8ofRat (input * 4) + m.state) % 4
        ((ns : ℚ) + input, FunctionData.markov ⟨ns, m.transitions⟩)
    | FunctionData.kernel k =>
        let infl := k.influence * k.decay
        (infl + input, FunctionData.kernel ⟨infl, k.decay⟩)
  (step.1,
    { n with
        value := step.1
        data := step.2
        execution_count := n.execution_count + 1 })

/-- The node built by `UniversalNodeEngine::initialize` at linear index `i`:
id `i`, coordinates from the fixed 10×10×N tiling. -/
def nodeAt (i : ℕ) : UniversalNode :=
  UniversalNode.mkNode i ((i % 10 : ℕ) : ℤ) ((i / 10 % 10 : ℕ) : ℤ) ((i / 100 : ℕ) : ℤ)

/-- `UniversalNodeEngine::initialize`: builds `count` fresh nodes. -/
def initNodes (count : ℕ) : List UniversalNode :=
  (List.range count).map nodeAt

/-- The per-index body of the `executeWave` loop, starting at index `i`:
returns the running output total and the mutated nodes. Node `i` receives
input `base_input + i * 0.1`. -/
def waveFrom (base_input : ℚ) (i : ℕ) : List UniversalNode → ℚ × List UniversalNode
  | [] => (0, [])
  | n :: rest =>
      let r := n.execute (base_input + (i : ℚ) * (1 / 10))
      let w := waveFrom base_input (i + 1) rest
      (r.1 + w.1, r.2 :: w.2)

/-- `UniversalNodeEngine::executeWave`: returns 0.0 on an empty lattice,
otherwise executes every node and returns the mean output together with the
mutated lattice. -/
def executeWave (nodes : List UniversalNode) (base_input : ℚ) :
    ℚ × List UniversalNode :=
  match nodes with
  | [] => (0, [])
  | n :: rest =>
      let w := waveFrom base_input 0 (n :: rest)
      (w.1 / ((n :: rest).length : ℚ), w.2)

/-- The fixed role pattern of `performRoleSwitching`: round-robin over the
six roles by unit index (`types[i % 6]`). -/
def typeAt (i : ℕ) : NodeType :=
  match i % 6 with
  | 0 => NodeType.WORKER
  | 1 => NodeType.COMM
  | 2 => NodeType.VECTOR
  | 3 => NodeType.PROCESSOR
  | 4 => NodeType.MARKOV
  | _ => NodeType.KERNEL

/-- The body of the `performRoleSwitching` loop starting at index `i`. -/
def sweepFrom (sinf : ℚ → ℚ) (i : ℕ) : List UniversalNode → List UniversalNode
  | [] => []
  | n :: rest => (n.switchToType sinf (typeAt i)).2 :: sweepFrom sinf (i + 1) rest

/-- `UniversalNodeEngine::performRoleSwitching`: switches node `i` to
`types[i % 6]` for every `i`. -/
def performRoleSwitching (sinf : ℚ → ℚ) (nodes : List UniversalNode) :
    List UniversalNode :=
  sweepFrom sinf 0 nodes

/-- `UniversalNodeEngine::getNode`: bounds-checked direct access, `none` in
place of the source's `nullptr`. -/
def getNode (nodes : List UniversalNode) (index : ℕ) : Option UniversalNode :=
  if h : index < nodes.length then some (nodes.get ⟨index, h⟩) else none

/-- Accumulator of a node currently holding WORKER state (0 otherwise);
used to state lattice-level claims about integrator accumulators. -/
def accOf (n : UniversalNode) : ℚ :=
  match n.data with
  | FunctionData.worker w => w.accumulator
  | _ => 0

end DASE

namespace Analog

/-- `class AnalogUniversalNode`: continuous analog state (output, integrator
state, previous input, feedback gain) plus an operation counter. -/
structure AnalogUniversalNode : Type where
  current_output : ℚ
  integrator_state : ℚ
  previous_input : ℚ
  feedback_gain : ℚ
  operation_count : ℕ
  deriving DecidableEq, Repr

/-- Default-constructed analog node. -/
def AnalogUniversalNode.init : AnalogUniversalNode := ⟨0, 0, 0, 1, 0⟩

/-- The four implicit modes of the signal-controlled node. -/
inductive Mode : Type
  | Integrator
  | Differentiator
  | Amplifier
  | Inverter
  deriving DecidableEq, Repr

/-- The mode the `processSignal` if-chain selects for a control value. -/
def modeOf (control : ℚ) : Mode :=
  if 1 / 2 < control then Mode.Integrator
  else if control < -(1 / 2) then Mode.Differentiator
  else if 0 < control then Mode.Amplifier
  else Mode.Inverter

/-- `AnalogUniversalNode::processSignal`: bumps the operation counter, then
dispatches on the control signal (integrator / differentiator / amplifier /
inverter), stores the result in `current_output`, and returns it. The
`aux_signal` argument of the source is unused by the function body. -/
def AnalogUniversalNode.processSignal (n : AnalogUniversalNode)
    (input_signal control_signal : ℚ) : ℚ × AnalogUniversalNode :=
  let n1 := { n with operation_count := n.operation_count + 1 }
  if 1 / 2 < control_signal then
    let st := n1.integrator_state + input_signal * (1 / 10)
    let r := st * n1.feedback_gain
    (r, { n1 with integrator_state := st, current_output := r })
  else if control_signal < -(1 / 2) then
    let d := input_signal - n1.previous_input
    let r := d * n1.feedback_gain
    (r, { n1 with previous_input := input_signal, current_output := r })
  else if 0 < control_signal then
    let r := input_signal * (1 + control_signal) * n1.feedback_gain
    (r, { n1 with current_output := r })
  else
    let r := -input_signal * (1 + |control_signal|) * n1.feedback_gain
    (r, { n1 with current_output := r })

/-- The result of one `processSignal` call, spelled per mode; used to relate
the if-chain of the source to the mode partition. -/
def processInMode (m : Mode) (n : AnalogUniversalNode)
    (input_signal control_signal : ℚ) : ℚ × AnalogUniversalNode :=
  let n1 := { n with operation_count := n.operation_count + 1 }
  match m with
  | Mode.Integrator =>
      let st := n1.integrator_state + input_signal * (1 / 10)
      let r := st * n1.feedback_gain
      (r, { n1 with integrator_state := st, current_output := r })
  | Mode.Differentiator =>
      let d := input_signal - n1.previous_input
      let r := d * n1.feedback_gain
      (r, { n1 with previous_input := input_signal, current_output := r })
  | Mode.Amplifier =>
      let r := input_signal * (1 + control_signal) * n1.feedback_gain
      (r, { n1 with current_output := r })
  | Mode.Inverter =>
      let r := -input_signal * (1 + |control_signal|) * n1.feedback_gain
      (r, { n1 with current_output := r })

end Analog

open DASE Analog

/-- A concrete node holding KERNEL state with last output 7; used to witness
claims about switching out of a non-Worker role. -/
def kernelNode7 : UniversalNode :=
  ⟨NodeType.KERNEL, 7, FunctionData.kernel ⟨7, 9 / 10⟩, 0, 0, 0, 0, 1, 0⟩

/-- A concrete node holding zero-initialized PROCESSOR state. -/
def procNode : UniversalNode :=
  ⟨NodeType.PROCESSOR, 0, FunctionData.processor ProcessorData.init, 0, 0, 0, 0, 0, 0⟩

/-- C1: switching a unit to a role different from its current one returns
true, increments the switch count, installs the new role tag, and replaces
the whole role state with a freshly-initialized block for the new role whose
fields are the zero-initialized defaults seeded only from the captured
scalar output (accumulator for Worker, registers[0] for RegisterFile, state
for MarkovChain, influence for InfluenceKernel) and the spatial coordinates
(VectorStore) — no field of the prior role's state survives. -/
theorem C1_switch_fresh_block (sinf : ℚ → ℚ) (n : UniversalNode)
    (newRole : NodeType) (h : newRole ≠ n.current_type) :
    (n.switchToType sinf newRole).1 = true ∧
    ((n.switchToType sinf newRole).2).current_type = newRole ∧
    ((n.switchToType sinf newRole).2).switch_count = n.switch_count + 1 ∧
    ((n.switchToType sinf newRole).2).value = n.value ∧
    ((n.switchToType sinf newRole).2).execution_count = n.execution_count ∧
    (newRole = NodeType.WORKER →
      ((n.switchToType sinf newRole).2).data = FunctionData.worker ⟨1, n.value, 0⟩) ∧
    (newRole = NodeType.COMM →
      ((n.switchToType sinf newRole).2).data = FunctionData.comm ⟨0, fun _ => 0⟩) ∧
    (newRole = NodeType.VECTOR →
      ((n.switchToType sinf newRole).2).data = FunctionData.vector
        ⟨fun i => sinf ((n.x + n.y + n.z + (i : ℕ)) * (1 / 10)), 8 / 10⟩) ∧
    (newRole = NodeType.PROCESSOR →
      ((n.switchToType sinf newRole).2).data = FunctionData.processor
        ⟨fun i => if i = 0 then u32ofRat n.value else 0, 0⟩) ∧
    (newRole = NodeType.MARKOV →
      ((n.switchToType sinf newRole).2).data =
        FunctionData.markov ⟨u8ofRat n.value % 4, fun _ => 1 / 4⟩) ∧
    (newRole = NodeType.KERNEL →
      ((n.switchToType sinf newRole).2).data =
        FunctionData.kernel ⟨n.value, 9 / 10⟩) := by
  have hne : ¬n.current_type = newRole := fun hc => h hc.symm
  cases newRole <;> simp [UniversalNode.switchToType, hne]

/-- Witness for C1 at a concrete unit and role (Worker node switched to
InfluenceKernel). -/
theorem C1_switch_fresh_block_witness :
    (((UniversalNode.mkNode 0 0 0 0).switchToType (fun _ => 0) NodeType.KERNEL).2).data =
      FunctionData.kernel ⟨(UniversalNode.mkNode 0 0 0 0).value, 9 / 10⟩ :=
  (C1_switch_fresh_block (fun _ => 0) (UniversalNode.mkNode 0 0 0 0) NodeType.KERNEL
    (by decide)).2.2.2.2.2.2.2.2.2.2 rfl

/-- C2: switching a unit whose current role is not Worker into the Worker
(Integrator) role installs worker state whose accumulator is exactly the
unit's last scalar output (gain reset to 1, previous value to 0). -/
theorem C2_integrator_seed (sinf : ℚ → ℚ) (n : UniversalNode)
    (h : n.current_type ≠ NodeType.WORKER) :
    ((n.switchToType sinf NodeType.WORKER).2).data =
      FunctionData.worker ⟨1, n.value, 0⟩ := by
  simp [UniversalNode.switchToType, h]

/-- Witness for C2: a kernel-role node with last output 7 switched to Worker
gets accumulator exactly 7. -/
theorem C2_integrator_seed_witness :
    ((kernelNode7.switchToType (fun _ => 0) NodeType.WORKER).2).data =
      FunctionData.worker ⟨1, 7, 0⟩ :=
  C2_integrator_seed (fun _ => 0) kernelNode7 (by decide)

/-- C3: switching a unit to its current role is a complete no-op: it returns
false and leaves the whole unit (role state, switch count, everything)
unchanged. -/
theorem C3_switch_self_noop (sinf : ℚ → ℚ) (n : UniversalNode) :
    n.switchToType sinf n.current_type = (false, n) := by
  simp [UniversalNode.switchToType]

/-- C4 counterexample: on the 4-unit freshly-initialized lattice, one
`executeWave(1.0)` does NOT leave every accumulator at 0.1 nor return an
average of 0.1 (the worker integration step is 0.01, the output adds the
input to the accumulator, and the per-unit input varies as 1.0 + 0.1·i). -/
theorem C4_claim_false :
    ¬((executeWave (initNodes 4) 1).1 = 1 / 10 ∧
      ((executeWave (initNodes 4) 1).2.map accOf) =
        [1 / 10, 1 / 10, 1 / 10, 1 / 10]) := by
  have h4 : initNodes 4 = [nodeAt 0, nodeAt 1, nodeAt 2, nodeAt 3] := rfl
  rw [h4]
  simp [executeWave, waveFrom, UniversalNode.execute, nodeAt, UniversalNode.mkNode,
    WorkerData.init, accOf]

/-- C4 amended: on a lattice of 4 freshly-initialized units (default
Worker/Integrator-equivalent role, gain 1.0), one call of `executeWave(1.0)`
feeds unit i the input 1.0 + 0.1·i, leaves unit i's accumulator equal to
0.01·(1.0 + 0.1·i) — i.e. [0.01, 0.011, 0.012, 0.013] — and returns the
average output 1.1615 (each unit computes output = input × gain, then
accumulator += output × 0.01, then output += accumulator). -/
theorem C4_amended_wave :
    (executeWave (initNodes 4) 1).1 = 2323 / 2000 ∧
    ((executeWave (initNodes 4) 1).2.map accOf) =
      [1 / 100, 11 / 1000, 3 / 250, 13 / 1000] := by
  have h4 : initNodes 4 = [nodeAt 0, nodeAt 1, nodeAt 2, nodeAt 3] := rfl
  rw [h4]
  simp [executeWave, waveFrom, UniversalNode.execute, nodeAt, UniversalNode.mkNode,
    WorkerData.init, accOf]
  norm_num

/-- C5: the signal-controlled node partitions the control axis exactly as
claimed: Integrator iff control > 0.5, Differentiator iff control < −0.5,
Amplifier iff 0 < control ≤ 0.5, Inverter iff −0.5 ≤ control ≤ 0; control
exactly 0.5 is Amplifier; and `processSignal` computes precisely the
selected mode's update. -/
theorem C5_mode_partition (control : ℚ) :
    (modeOf control = Mode.Integrator ↔ 1 / 2 < control) ∧
    (modeOf control = Mode.Differentiator ↔ control < -(1 / 2)) ∧
    (modeOf control = Mode.Amplifier ↔ 0 < control ∧ control ≤ 1 / 2) ∧
    (modeOf control = Mode.Inverter ↔ control ≤ 0 ∧ -(1 / 2) ≤ control) ∧
    modeOf (1 / 2) = Mode.Amplifier ∧
    (∀ (n : AnalogUniversalNode) (input : ℚ),
      n.processSignal input control = processInMode (modeOf control) n input control) := by
  refine ⟨?_, ?_, ?_, ?_, by norm_num [modeOf], ?_⟩
  · unfold modeOf
    split_ifs with h1 h2 h3
    · exact iff_of_true rfl h1
    · exact iff_of_false (by decide) h1
    · exact iff_of_false (by decide) h1
    · exact iff_of_false (by decide) h1
  · unfold modeOf
    split_ifs with h1 h2 h3
    · exact iff_of_false (by decide) (by intro hc; linarith)
    · exact iff_of_true rfl h2
    · exact iff_of_false (by decide) h2
    · exact iff_of_false (by decide) h2
  · unfold modeOf
    split_ifs with h1 h2 h3
    · exact iff_of_false (by decide) (fun hc => absurd hc.2 (not_le.mpr h1))
    · exact iff_of_false (by decide) (fun hc => by linarith [hc.1])
    · exact iff_of_true rfl ⟨h3, not_lt.mp h1⟩
    · exact iff_of_false (by decide) (fun hc => h3 hc.1)
  · unfold modeOf
    split_ifs with h1 h2 h3
    · exact iff_of_false (by decide) (fun hc => by linarith [hc.1])
    · exact iff_of_false (by decide) (fun hc => by linarith [hc.2])
    · exact iff_of_false (by decide) (fun hc => by linarith [hc.1])
    · exact iff_of_true rfl ⟨not_lt.mp h3, not_lt.mp h2⟩
  · intro n input
    unfold AnalogUniversalNode.processSignal processInMode modeOf
    split_ifs <;> rfl

/-- C6: `executeWave` on a lattice constructed with zero units returns the
neutral value 0.0 for every input. -/
theorem C6_empty_wave (input : ℚ) :
    executeWave (initNodes 0) input = (0, []) := rfl

/-- C7: bounds-checked direct unit access: an index at or past the unit
count yields `none` (the source's nullptr), an in-range index yields the
i-th unit. -/
theorem C7_getNode_bounds (nodes : List UniversalNode) (i : ℕ) :
    (nodes.length ≤ i → getNode nodes i = none) ∧
    ∀ h : i < nodes.length, getNode nodes i = some (nodes.get ⟨i, h⟩) := by
  constructor
  · intro h
    exact dif_neg (not_lt.mpr h)
  · intro h
    exact dif_pos h

/-- Witness for C7 on a 2-unit lattice: index 5 fails, index 1 returns the
second unit. -/
theorem C7_getNode_bounds_witness :
    getNode (initNodes 2) 5 = none ∧
    getNode (initNodes 2) 1 = some ((initNodes 2).get ⟨1, by decide⟩) :=
  ⟨(C7_getNode_bounds (initNodes 2) 5).1 (by decide),
   (C7_getNode_bounds (initNodes 2) 1).2 (by decide)⟩

/-- Switching always leaves the unit tagged with the requested role,
whether or not the switch was a no-op. -/
theorem switchToType_tag (sinf : ℚ → ℚ) (n : UniversalNode) (t : NodeType) :
    ((n.switchToType sinf t).2).current_type = t := by
  unfold UniversalNode.switchToType
  split_ifs with h
  · exact h
  · rfl

/-- Switching a unit to the role it already holds returns the unit intact. -/
theorem switchToType_noop (sinf : ℚ → ℚ) (n : UniversalNode) (t : NodeType)
    (h : n.current_type = t) : n.switchToType sinf t = (false, n) := by
  unfold UniversalNode.switchToType
  rw [if_pos h]

/-- The role sweep loop is idempotent from any starting index. -/
theorem sweepFrom_idem (sinf : ℚ → ℚ) (i : ℕ) (l : List UniversalNode) :
    sweepFrom sinf i (sweepFrom sinf i l) = sweepFrom sinf i l := by
  induction l generalizing i with
  | nil => rfl
  | cons n rest ih =>
      simp only [sweepFrom]
      rw [switchToType_noop sinf _ _ (switchToType_tag sinf n (typeAt i)), ih]

/-- C8: the role sweep is idempotent: running `performRoleSwitching` twice
in a row leaves every unit with the same role assignment as running it once
(indeed the second sweep changes nothing at all about any unit). -/
theorem C8_sweep_idempotent (sinf : ℚ → ℚ) (nodes : List UniversalNode) :
    (performRoleSwitching sinf (performRoleSwitching sinf nodes)).map
        UniversalNode.current_type =
      (performRoleSwitching sinf nodes).map UniversalNode.current_type := by
  unfold performRoleSwitching
  rw [sweepFrom_idem]

/-- C9: executing a unit holding RegisterFile state sets register 1 to
register 0 plus the input truncated to unsigned 32 bits (the sum wrapping
modulo 2^32, never faulting), increments the (16-bit) program counter by
one, leaves all other registers intact, and outputs the new register 1. -/
theorem C9_registerfile_execute (n : UniversalNode) (p : ProcessorData)
    (input : ℚ) (h : n.data = FunctionData.processor p) :
    (n.execute input).1 = (((p.registers 0 + u32ofRat input) % 2 ^ 32 : ℕ) : ℚ) ∧
    ((n.execute input).2).data = FunctionData.processor
      ⟨fun i => if i = 1 then (p.registers 0 + u32ofRat input) % 2 ^ 32
                else p.registers i,
       (p.pc + 1) % 2 ^ 16⟩ ∧
    ((n.execute input).2).execution_count = n.execution_count + 1 := by
  simp [UniversalNode.execute, h]

/-- Witness for C9: the claimed scenario — a zero-initialized RegisterFile
unit executed on input 5.0 (register 1 becomes 5, pc becomes 1, output 5.0). -/
theorem C9_registerfile_execute_witness :
    (procNode.execute 5).1 =
      (((ProcessorData.init.registers 0 + u32ofRat 5) % 2 ^ 32 : ℕ) : ℚ) ∧
    ((procNode.execute 5).2).data = FunctionData.processor
      ⟨fun i => if i = 1 then (ProcessorData.init.registers 0 + u32ofRat 5) % 2 ^ 32
                else ProcessorData.init.registers i,
       (ProcessorData.init.pc + 1) % 2 ^ 16⟩ ∧
    ((procNode.execute 5).2).execution_count = procNode.execution_count + 1 :=
  C9_registerfile_execute procNode ProcessorData.init 5 rfl

/-- C10: switching a unit into the VectorStore role from any other role
seeds every embedding component i with sinf((x + y + z + i) × 0.1) of the
unit's spatial coordinates — depending only on the position, not on the
captured scalar output — and a subsequent VectorStore execution outputs the
dot product of this embedding with the input broadcast to all 8 components. -/
theorem C10_vector_seed (sinf : ℚ → ℚ) (n : UniversalNode)
    (h : n.current_type ≠ NodeType.VECTOR) :
    ((n.switchToType sinf NodeType.VECTOR).2).data =
      FunctionData.vector
        ⟨fun i => sinf ((n.x + n.y + n.z + (i : ℕ)) * (1 / 10)), 8 / 10⟩ ∧
    ∀ input : ℚ,
      (((n.switchToType sinf NodeType.VECTOR).2).execute input).1 =
        ∑ i : Fin 8, sinf ((n.x + n.y + n.z + (i : ℕ)) * (1 / 10)) * input := by
  constructor
  · simp [UniversalNode.switchToType, h]
  · intro input
    simp [UniversalNode.switchToType, UniversalNode.execute, h]

/-- Witness for C10: the node at coordinates (1,2,3) switched into
VectorStore (with the identity in place of sinf) and executed on input 2. -/
theorem C10_vector_seed_witness :
    (((UniversalNode.mkNode 0 1 2 3).switchToType (fun q : ℚ => q)
        NodeType.VECTOR).2.execute 2).1 =
      ∑ i : Fin 8,
        (fun q : ℚ => q) ((((UniversalNode.mkNode 0 1 2 3).x : ℚ) +
          ((UniversalNode.mkNode 0 1 2 3).y : ℚ) +
          ((UniversalNode.mkNode 0 1 2 3).z : ℚ) + ((i : ℕ) : ℚ)) * (1 / 10)) * 2 :=
  (C10_vector_seed (fun q : ℚ => q) (UniversalNode.mkNode 0 1 2 3) (by decide)).2 2
